import Mathlib

/-!
# smoko: the raylib wrapper layer

A verification development for `src/raylib_wrapper.c`, `src/raylib_wrapper.h`
and `src/include/CoreGraphics/CGSession.h`.

The twenty functions of `raylib_wrapper.c` are embedded as state-passing
functions over an arbitrary external environment `Env σ F Fnt`: `σ` is the
state of everything outside the repository (the raylib library and the
window system), `F` is the C type `float` (no arithmetic is ever done on it
by this code, so it is kept abstract) and `Fnt` is raylib's `Font` struct
(passed and returned by value, never inspected).

* C `int` is `Int`, `unsigned int` is `Nat`, `bool` is `Bool`,
  `const char *` is the `String` it points to.
* A `void` library function is a state transformer `σ → σ`; a function that
  returns a value is `σ → α × σ`.
* `BLACK`, `WHITE` and `FLAG_FULLSCREEN_MODE` are used by the source as plain
  identifiers (no call), so they are constants of the environment.
-/

namespace Smoko

/-! ## Data passed through the boundary -/

/-- Modelled from the spec: the `Color` struct of `raylib.h`, which is not part
of the repository; the spec describes colors as RGBA tuples. -/
structure Color where
  r : Nat
  g : Nat
  b : Nat
  a : Nat
deriving DecidableEq, Repr

/-- Modelled from the spec: the `Vector2` struct of `raylib.h`, which is not part
of the repository; the spec describes 2D positions as float pairs. -/
structure Vector2 (F : Type) where
  x : F
  y : F
deriving DecidableEq, Repr

/-- The external functions and constants visible to the repository: the
seventeen raylib functions and three raylib constants used by
`raylib_wrapper.c`, and the two functions declared by `CGSession.h`
(lines 14 and 17). Their behaviour is a parameter of the development. -/
structure Env (σ F Fnt : Type) where
  InitWindow : Int → Int → String → σ → σ
  CloseWindow : σ → σ
  BeginDrawing : σ → σ
  EndDrawing : σ → σ
  ClearBackground : Color → σ → σ
  DrawRectangle : Int → Int → Int → Int → Color → σ → σ
  GetScreenWidth : σ → Int × σ
  GetScreenHeight : σ → Int × σ
  SetTargetFPS : Int → σ → σ
  WindowShouldClose : σ → Bool × σ
  IsWindowReady : σ → Bool × σ
  ToggleFullscreen : σ → σ
  SetWindowState : Nat → σ → σ
  BLACK : Color
  WHITE : Color
  FLAG_FULLSCREEN_MODE : Nat
  DrawText : String → Int → Int → Int → Color → σ → σ
  LoadFont : String → σ → Fnt × σ
  DrawTextEx : Fnt → String → Vector2 F → F → F → Color → σ → σ
  MeasureTextEx : Fnt → String → F → F → σ → Vector2 F × σ
  CGSMainConnectionID : σ → Int × σ
  CGSSessionSecureConnections : Int → σ → Int × σ

variable {σ F Fnt : Type}

/-! ## The wrappers of `raylib_wrapper.c`, in source order -/

/-- Source lines 3-6: `void init_window(int width, int height, const char *title)`. -/
def init_window (E : Env σ F Fnt) (width height : Int) (title : String) (s : σ) : σ :=
  E.InitWindow width height title s

/-- Source lines 8-11: `void close_window(void)`. -/
def close_window (E : Env σ F Fnt) (s : σ) : σ :=
  E.CloseWindow s

/-- Source lines 13-16: `void begin_drawing(void)`. -/
def begin_drawing (E : Env σ F Fnt) (s : σ) : σ :=
  E.BeginDrawing s

/-- Source lines 18-21: `void end_drawing(void)`. -/
def end_drawing (E : Env σ F Fnt) (s : σ) : σ :=
  E.EndDrawing s

/-- Source lines 23-26: `void clear_background(Color color)`. -/
def clear_background (E : Env σ F Fnt) (color : Color) (s : σ) : σ :=
  E.ClearBackground color s

/-- Source lines 28-31:
`void draw_rectangle(int posX, int posY, int width, int height, Color color)`. -/
def draw_rectangle (E : Env σ F Fnt) (posX posY width height : Int) (color : Color)
    (s : σ) : σ :=
  E.DrawRectangle posX posY width height color s

/-- Source lines 33-36: `int get_screen_width(void)`. -/
def get_screen_width (E : Env σ F Fnt) (s : σ) : Int × σ :=
  E.GetScreenWidth s

/-- Source lines 38-41: `int get_screen_height(void)`. -/
def get_screen_height (E : Env σ F Fnt) (s : σ) : Int × σ :=
  E.GetScreenHeight s

/-- Source lines 43-46: `void set_target_fps(int fps)`. -/
def set_target_fps (E : Env σ F Fnt) (fps : Int) (s : σ) : σ :=
  E.SetTargetFPS fps s

/-- Source lines 48-51: `bool window_should_close(void)`. -/
def window_should_close (E : Env σ F Fnt) (s : σ) : Bool × σ :=
  E.WindowShouldClose s

/-- Source lines 53-56: `bool is_window_ready(void)`. -/
def is_window_ready (E : Env σ F Fnt) (s : σ) : Bool × σ :=
  E.IsWindowReady s

/-- Source lines 58-61: `void toggle_fullscreen(void)`. -/
def toggle_fullscreen (E : Env σ F Fnt) (s : σ) : σ :=
  E.ToggleFullscreen s

/-- Source lines 63-66: `void set_window_state(unsigned int flags)`. -/
def set_window_state (E : Env σ F Fnt) (flags : Nat) (s : σ) : σ :=
  E.SetWindowState flags s

/-- Source lines 68-71: `Color get_black(void) { return BLACK; }`. -/
def get_black (E : Env σ F Fnt) (s : σ) : Color × σ :=
  (E.BLACK, s)

/-- Source lines 73-76: `Color get_white(void) { return WHITE; }`. -/
def get_white (E : Env σ F Fnt) (s : σ) : Color × σ :=
  (E.WHITE, s)

/-- Source lines 78-81:
`unsigned int get_flag_fullscreen_mode(void) { return FLAG_FULLSCREEN_MODE; }`. -/
def get_flag_fullscreen_mode (E : Env σ F Fnt) (s : σ) : Nat × σ :=
  (E.FLAG_FULLSCREEN_MODE, s)

/-- Source lines 83-86:
`void draw_text(const char *text, int posX, int posY, int fontSize, Color color)`. -/
def draw_text (E : Env σ F Fnt) (text : String) (posX posY fontSize : Int) (color : Color)
    (s : σ) : σ :=
  E.DrawText text posX posY fontSize color s

/-- Source lines 88-91: `Font load_font(const char *fileName)`. -/
def load_font (E : Env σ F Fnt) (fileName : String) (s : σ) : Fnt × σ :=
  E.LoadFont fileName s

/-- Source lines 93-96: `void draw_text_ex(Font font, const char *text,
Vector2 position, float fontSize, float spacing, Color tint)`. -/
def draw_text_ex (E : Env σ F Fnt) (font : Fnt) (text : String) (position : Vector2 F)
    (fontSize spacing : F) (tint : Color) (s : σ) : σ :=
  E.DrawTextEx font text position fontSize spacing tint s

/-- Source lines 98-101: `Vector2 measure_text_ex(Font font, const char *text,
float fontSize, float spacing)`. -/
def measure_text_ex (E : Env σ F Fnt) (font : Fnt) (text : String) (fontSize spacing : F)
    (s : σ) : Vector2 F × σ :=
  E.MeasureTextEx font text fontSize spacing s

/-! ## Observing the external calls a function performs -/

/-- One call of an external function, with the arguments it received, in the
order of the callee's parameter list. -/
inductive ExtCall (F Fnt : Type) where
  | InitWindow (width height : Int) (title : String)
  | CloseWindow
  | BeginDrawing
  | EndDrawing
  | ClearBackground (color : Color)
  | DrawRectangle (posX posY width height : Int) (color : Color)
  | GetScreenWidth
  | GetScreenHeight
  | SetTargetFPS (fps : Int)
  | WindowShouldClose
  | IsWindowReady
  | ToggleFullscreen
  | SetWindowState (flags : Nat)
  | DrawText (text : String) (posX posY fontSize : Int) (color : Color)
  | LoadFont (fileName : String)
  | DrawTextEx (font : Fnt) (text : String) (position : Vector2 F) (fontSize spacing : F)
      (tint : Color)
  | MeasureTextEx (font : Fnt) (text : String) (fontSize spacing : F)
  | CGSMainConnectionID
  | CGSSessionSecureConnections (session : Int)
deriving DecidableEq, Repr

/-- Whether a call is one of the two CoreGraphics session calls declared in
`CGSession.h`. -/
def ExtCall.isCoreGraphics : ExtCall F Fnt → Bool
  | .CGSMainConnectionID => true
  | .CGSSessionSecureConnections _ => true
  | _ => false

/-- The environment `E` with a call log attached to its state: every external
function behaves as in `E` and appends the call it received to the log. The
three constants are unchanged. Running a function of the repository against
`traced E` yields the sequence of external calls it performs. -/
def traced (E : Env σ F Fnt) : Env (σ × List (ExtCall F Fnt)) F Fnt where
  InitWindow := fun width height title st =>
    (E.InitWindow width height title st.1, st.2 ++ [.InitWindow width height title])
  CloseWindow := fun st => (E.CloseWindow st.1, st.2 ++ [.CloseWindow])
  BeginDrawing := fun st => (E.BeginDrawing st.1, st.2 ++ [.BeginDrawing])
  EndDrawing := fun st => (E.EndDrawing st.1, st.2 ++ [.EndDrawing])
  ClearBackground := fun color st =>
    (E.ClearBackground color st.1, st.2 ++ [.ClearBackground color])
  DrawRectangle := fun posX posY width height color st =>
    (E.DrawRectangle posX posY width height color st.1,
      st.2 ++ [.DrawRectangle posX posY width height color])
  GetScreenWidth := fun st =>
    ((E.GetScreenWidth st.1).1, ((E.GetScreenWidth st.1).2, st.2 ++ [.GetScreenWidth]))
  GetScreenHeight := fun st =>
    ((E.GetScreenHeight st.1).1, ((E.GetScreenHeight st.1).2, st.2 ++ [.GetScreenHeight]))
  SetTargetFPS := fun fps st => (E.SetTargetFPS fps st.1, st.2 ++ [.SetTargetFPS fps])
  WindowShouldClose := fun st =>
    ((E.WindowShouldClose st.1).1,
      ((E.WindowShouldClose st.1).2, st.2 ++ [.WindowShouldClose]))
  IsWindowReady := fun st =>
    ((E.IsWindowReady st.1).1, ((E.IsWindowReady st.1).2, st.2 ++ [.IsWindowReady]))
  ToggleFullscreen := fun st => (E.ToggleFullscreen st.1, st.2 ++ [.ToggleFullscreen])
  SetWindowState := fun flags st =>
    (E.SetWindowState flags st.1, st.2 ++ [.SetWindowState flags])
  BLACK := E.BLACK
  WHITE := E.WHITE
  FLAG_FULLSCREEN_MODE := E.FLAG_FULLSCREEN_MODE
  DrawText := fun text posX posY fontSize color st =>
    (E.DrawText text posX posY fontSize color st.1,
      st.2 ++ [.DrawText text posX posY fontSize color])
  LoadFont := fun fileName st =>
    ((E.LoadFont fileName st.1).1,
      ((E.LoadFont fileName st.1).2, st.2 ++ [.LoadFont fileName]))
  DrawTextEx := fun font text position fontSize spacing tint st =>
    (E.DrawTextEx font text position fontSize spacing tint st.1,
      st.2 ++ [.DrawTextEx font text position fontSize spacing tint])
  MeasureTextEx := fun font text fontSize spacing st =>
    ((E.MeasureTextEx font text fontSize spacing st.1).1,
      ((E.MeasureTextEx font text fontSize spacing st.1).2,
        st.2 ++ [.MeasureTextEx font text fontSize spacing]))
  CGSMainConnectionID := fun st =>
    ((E.CGSMainConnectionID st.1).1,
      ((E.CGSMainConnectionID st.1).2, st.2 ++ [.CGSMainConnectionID]))
  CGSSessionSecureConnections := fun session st =>
    ((E.CGSSessionSecureConnections session st.1).1,
      ((E.CGSSessionSecureConnections session st.1).2,
        st.2 ++ [.CGSSessionSecureConnections session]))

/-! ## Calls of the wrappers, and sequences of calls -/

/-- A value returned across the boundary (`unit` for a `void` function). -/
inductive Val (F Fnt : Type) where
  | unit
  | int (i : Int)
  | bool (b : Bool)
  | uint (n : Nat)
  | color (c : Color)
  | font (f : Fnt)
  | vec (v : Vector2 F)
deriving DecidableEq, Repr

/-- The names of the twenty functions defined in `raylib_wrapper.c`
(prototypes: `raylib_wrapper.h` lines 7-26). -/
inductive Wrapper where
  | init_window | close_window | begin_drawing | end_drawing | clear_background
  | draw_rectangle | get_screen_width | get_screen_height | set_target_fps
  | window_should_close | is_window_ready | toggle_fullscreen | set_window_state
  | get_black | get_white | get_flag_fullscreen_mode | draw_text | load_font
  | draw_text_ex | measure_text_ex
deriving DecidableEq, Repr

/-- A call of one of the twenty wrappers with its argument tuple. -/
inductive WrapperCall (F Fnt : Type) where
  | init_window (width height : Int) (title : String)
  | close_window
  | begin_drawing
  | end_drawing
  | clear_background (color : Color)
  | draw_rectangle (posX posY width height : Int) (color : Color)
  | get_screen_width
  | get_screen_height
  | set_target_fps (fps : Int)
  | window_should_close
  | is_window_ready
  | toggle_fullscreen
  | set_window_state (flags : Nat)
  | get_black
  | get_white
  | get_flag_fullscreen_mode
  | draw_text (text : String) (posX posY fontSize : Int) (color : Color)
  | load_font (fileName : String)
  | draw_text_ex (font : Fnt) (text : String) (position : Vector2 F) (fontSize spacing : F)
      (tint : Color)
  | measure_text_ex (font : Fnt) (text : String) (fontSize spacing : F)
deriving DecidableEq, Repr

/-- The wrapper a call is a call of. -/
def WrapperCall.name : WrapperCall F Fnt → Wrapper
  | .init_window _ _ _ => .init_window
  | .close_window => .close_window
  | .begin_drawing => .begin_drawing
  | .end_drawing => .end_drawing
  | .clear_background _ => .clear_background
  | .draw_rectangle _ _ _ _ _ => .draw_rectangle
  | .get_screen_width => .get_screen_width
  | .get_screen_height => .get_screen_height
  | .set_target_fps _ => .set_target_fps
  | .window_should_close => .window_should_close
  | .is_window_ready => .is_window_ready
  | .toggle_fullscreen => .toggle_fullscreen
  | .set_window_state _ => .set_window_state
  | .get_black => .get_black
  | .get_white => .get_white
  | .get_flag_fullscreen_mode => .get_flag_fullscreen_mode
  | .draw_text _ _ _ _ _ => .draw_text
  | .load_font _ => .load_font
  | .draw_text_ex _ _ _ _ _ _ => .draw_text_ex
  | .measure_text_ex _ _ _ _ => .measure_text_ex

/-- The three wrappers whose body returns a library constant. -/
def Wrapper.isConstantGetter : Wrapper → Bool
  | .get_black => true
  | .get_white => true
  | .get_flag_fullscreen_mode => true
  | _ => false

/-- Run one wrapper call: dispatch to the embedded source function and box
its result. -/
def execWrapper (E : Env σ F Fnt) : WrapperCall F Fnt → σ → Val F Fnt × σ
  | .init_window width height title, s => (.unit, init_window E width height title s)
  | .close_window, s => (.unit, close_window E s)
  | .begin_drawing, s => (.unit, begin_drawing E s)
  | .end_drawing, s => (.unit, end_drawing E s)
  | .clear_background color, s => (.unit, clear_background E color s)
  | .draw_rectangle posX posY width height color, s =>
      (.unit, draw_rectangle E posX posY width height color s)
  | .get_screen_width, s => (.int (get_screen_width E s).1, (get_screen_width E s).2)
  | .get_screen_height, s => (.int (get_screen_height E s).1, (get_screen_height E s).2)
  | .set_target_fps fps, s => (.unit, set_target_fps E fps s)
  | .window_should_close, s =>
      (.bool (window_should_close E s).1, (window_should_close E s).2)
  | .is_window_ready, s => (.bool (is_window_ready E s).1, (is_window_ready E s).2)
  | .toggle_fullscreen, s => (.unit, toggle_fullscreen E s)
  | .set_window_state flags, s => (.unit, set_window_state E flags s)
  | .get_black, s => (.color (get_black E s).1, (get_black E s).2)
  | .get_white, s => (.color (get_white E s).1, (get_white E s).2)
  | .get_flag_fullscreen_mode, s =>
      (.uint (get_flag_fullscreen_mode E s).1, (get_flag_fullscreen_mode E s).2)
  | .draw_text text posX posY fontSize color, s =>
      (.unit, draw_text E text posX posY fontSize color s)
  | .load_font fileName, s => (.font (load_font E fileName s).1, (load_font E fileName s).2)
  | .draw_text_ex font text position fontSize spacing tint, s =>
      (.unit, draw_text_ex E font text position fontSize spacing tint s)
  | .measure_text_ex font text fontSize spacing, s =>
      (.vec (measure_text_ex E font text fontSize spacing s).1,
        (measure_text_ex E font text fontSize spacing s).2)

/-- Run a sequence of steps from left to right, threading the state and
collecting the returned values. -/
def runAll {α β : Type} (step : α → σ → β × σ) : List α → σ → List β × σ
  | [], s => ([], s)
  | a :: rest, s =>
      ((step a s).1 :: (runAll step rest (step a s).2).1, (runAll step rest (step a s).2).2)

/-! ## The direct use of the library the spec compares the wrappers with -/

/-- A direct use of the library: a call of an external function, or a read of
one of its three predefined constants. -/
inductive Direct (F Fnt : Type) where
  | call (c : ExtCall F Fnt)
  | BLACK
  | WHITE
  | FLAG_FULLSCREEN_MODE
deriving DecidableEq, Repr

/-- Perform one external call in environment `E` and box its result. -/
def callExt (E : Env σ F Fnt) : ExtCall F Fnt → σ → Val F Fnt × σ
  | .InitWindow width height title, s => (.unit, E.InitWindow width height title s)
  | .CloseWindow, s => (.unit, E.CloseWindow s)
  | .BeginDrawing, s => (.unit, E.BeginDrawing s)
  | .EndDrawing, s => (.unit, E.EndDrawing s)
  | .ClearBackground color, s => (.unit, E.ClearBackground color s)
  | .DrawRectangle posX posY width height color, s =>
      (.unit, E.DrawRectangle posX posY width height color s)
  | .GetScreenWidth, s => (.int (E.GetScreenWidth s).1, (E.GetScreenWidth s).2)
  | .GetScreenHeight, s => (.int (E.GetScreenHeight s).1, (E.GetScreenHeight s).2)
  | .SetTargetFPS fps, s => (.unit, E.SetTargetFPS fps s)
  | .WindowShouldClose, s => (.bool (E.WindowShouldClose s).1, (E.WindowShouldClose s).2)
  | .IsWindowReady, s => (.bool (E.IsWindowReady s).1, (E.IsWindowReady s).2)
  | .ToggleFullscreen, s => (.unit, E.ToggleFullscreen s)
  | .SetWindowState flags, s => (.unit, E.SetWindowState flags s)
  | .DrawText text posX posY fontSize color, s =>
      (.unit, E.DrawText text posX posY fontSize color s)
  | .LoadFont fileName, s => (.font (E.LoadFont fileName s).1, (E.LoadFont fileName s).2)
  | .DrawTextEx font text position fontSize spacing tint, s =>
      (.unit, E.DrawTextEx font text position fontSize spacing tint s)
  | .MeasureTextEx font text fontSize spacing, s =>
      (.vec (E.MeasureTextEx font text fontSize spacing s).1,
        (E.MeasureTextEx font text fontSize spacing s).2)
  | .CGSMainConnectionID, s => (.int (E.CGSMainConnectionID s).1, (E.CGSMainConnectionID s).2)
  | .CGSSessionSecureConnections session, s =>
      (.int (E.CGSSessionSecureConnections session s).1,
        (E.CGSSessionSecureConnections session s).2)

/-- Perform one direct use of the library. -/
def runDirect (E : Env σ F Fnt) : Direct F Fnt → σ → Val F Fnt × σ
  | .call c, s => callExt E c s
  | .BLACK, s => (.color E.BLACK, s)
  | .WHITE, s => (.color E.WHITE, s)
  | .FLAG_FULLSCREEN_MODE, s => (.uint E.FLAG_FULLSCREEN_MODE, s)

/-- The external calls a direct use of the library consists of: the call
itself, or none for a constant. -/
def Direct.calls : Direct F Fnt → List (ExtCall F Fnt)
  | .call c => [c]
  | _ => []

/-- The direct use of the library the spec pairs each wrapper call with:
`foo_bar(args)` is paired with `FooBar(args)`, same arguments in the same
positions, and a constant getter with the constant it names. -/
def corresponding : WrapperCall F Fnt → Direct F Fnt
  | .init_window width height title => .call (.InitWindow width height title)
  | .close_window => .call .CloseWindow
  | .begin_drawing => .call .BeginDrawing
  | .end_drawing => .call .EndDrawing
  | .clear_background color => .call (.ClearBackground color)
  | .draw_rectangle posX posY width height color =>
      .call (.DrawRectangle posX posY width height color)
  | .get_screen_width => .call .GetScreenWidth
  | .get_screen_height => .call .GetScreenHeight
  | .set_target_fps fps => .call (.SetTargetFPS fps)
  | .window_should_close => .call .WindowShouldClose
  | .is_window_ready => .call .IsWindowReady
  | .toggle_fullscreen => .call .ToggleFullscreen
  | .set_window_state flags => .call (.SetWindowState flags)
  | .get_black => .BLACK
  | .get_white => .WHITE
  | .get_flag_fullscreen_mode => .FLAG_FULLSCREEN_MODE
  | .draw_text text posX posY fontSize color => .call (.DrawText text posX posY fontSize color)
  | .load_font fileName => .call (.LoadFont fileName)
  | .draw_text_ex font text position fontSize spacing tint =>
      .call (.DrawTextEx font text position fontSize spacing tint)
  | .measure_text_ex font text fontSize spacing =>
      .call (.MeasureTextEx font text fontSize spacing)

/-- The three constant getters, as calls. -/
inductive Getter where
  | get_black | get_white | get_flag_fullscreen_mode
deriving DecidableEq, Repr

/-- The wrapper call a getter stands for. -/
def Getter.toCall : Getter → WrapperCall F Fnt
  | .get_black => .get_black
  | .get_white => .get_white
  | .get_flag_fullscreen_mode => .get_flag_fullscreen_mode

/-- The constant of the environment a getter names. -/
def Getter.constant (E : Env σ F Fnt) : Getter → Val F Fnt
  | .get_black => .color E.BLACK
  | .get_white => .color E.WHITE
  | .get_flag_fullscreen_mode => .uint E.FLAG_FULLSCREEN_MODE

/-- The external calls a sequence of direct uses of the library consists of. -/
def directCalls : List (Direct F Fnt) → List (ExtCall F Fnt)
  | [] => []
  | d :: rest => d.calls ++ directCalls rest

/-! ## The prototypes of `raylib_wrapper.h` -/

/-- The C types that occur in the prototypes of `raylib_wrapper.h`. `Color`,
`Font` and `Vector2` are the struct types of `raylib.h` (the header declares
none of its own and includes only `raylib.h` and `stdbool.h`). -/
inductive CType where
  | void | int | unsignedInt | bool | float | constCharPtr | Color | Font | Vector2
deriving DecidableEq, Repr

/-- Whether a type is one of the library's own struct types. -/
def CType.isLibraryStruct : CType → Bool
  | .Color => true
  | .Font => true
  | .Vector2 => true
  | _ => false

/-- The parameter types of each wrapper, `raylib_wrapper.h` lines 7-26. -/
def Wrapper.params : Wrapper → List CType
  | .init_window => [.int, .int, .constCharPtr]
  | .close_window => []
  | .begin_drawing => []
  | .end_drawing => []
  | .clear_background => [.Color]
  | .draw_rectangle => [.int, .int, .int, .int, .Color]
  | .get_screen_width => []
  | .get_screen_height => []
  | .set_target_fps => [.int]
  | .window_should_close => []
  | .is_window_ready => []
  | .toggle_fullscreen => []
  | .set_window_state => [.unsignedInt]
  | .get_black => []
  | .get_white => []
  | .get_flag_fullscreen_mode => []
  | .draw_text => [.constCharPtr, .int, .int, .int, .Color]
  | .load_font => [.constCharPtr]
  | .draw_text_ex => [.Font, .constCharPtr, .Vector2, .float, .float, .Color]
  | .measure_text_ex => [.Font, .constCharPtr, .float, .float]

/-- The return type of each wrapper, `raylib_wrapper.h` lines 7-26. -/
def Wrapper.ret : Wrapper → CType
  | .init_window => .void
  | .close_window => .void
  | .begin_drawing => .void
  | .end_drawing => .void
  | .clear_background => .void
  | .draw_rectangle => .void
  | .get_screen_width => .int
  | .get_screen_height => .int
  | .set_target_fps => .void
  | .window_should_close => .bool
  | .is_window_ready => .bool
  | .toggle_fullscreen => .void
  | .set_window_state => .void
  | .get_black => .Color
  | .get_white => .Color
  | .get_flag_fullscreen_mode => .unsignedInt
  | .draw_text => .void
  | .load_font => .Font
  | .draw_text_ex => .void
  | .measure_text_ex => .Vector2

/-- Whether a wrapper's prototype mentions one of the library's own struct
types, as a parameter or as the return type. -/
def Wrapper.usesLibraryStruct (w : Wrapper) : Bool :=
  (w.ret :: w.params).any CType.isLibraryStruct

/-- The wrappers that handle colors, 2D positions and fonts. -/
def colorVectorFontWrappers : List Wrapper :=
  [.clear_background, .draw_rectangle, .draw_text, .draw_text_ex, .load_font,
   .measure_text_ex, .get_black, .get_white]

/-! ## A small executable environment

A concrete instance of `Env`, used to evaluate the wrappers on concrete
inputs. It is one possible library among all those the theorems quantify
over: floats are integers and a font is a number, `0` standing for the
fallback font. -/

/-- The state of the small environment. -/
structure ToyState where
  ready : Bool
  width : Int
  height : Int
  caption : String
  fps : Int
  flags : Nat
  fullscreen : Bool
  inFrame : Bool
  drawn : Nat
  frames : Nat
  secured : Bool
deriving DecidableEq, Repr

/-- The small environment before any call. -/
def toyStart : ToyState :=
  { ready := false, width := 0, height := 0, caption := "", fps := 0, flags := 0,
    fullscreen := false, inFrame := false, drawn := 0, frames := 0, secured := false }

/-- The small environment. -/
def toyLib : Env ToyState Int Nat where
  InitWindow := fun width height title s =>
    { s with ready := true, width := width, height := height, caption := title }
  CloseWindow := fun s => { s with ready := false }
  BeginDrawing := fun s => { s with inFrame := true }
  EndDrawing := fun s => { s with inFrame := false, frames := s.frames + 1 }
  ClearBackground := fun _ s => { s with drawn := 0 }
  DrawRectangle := fun _ _ _ _ _ s => { s with drawn := s.drawn + 1 }
  GetScreenWidth := fun s => (s.width, s)
  GetScreenHeight := fun s => (s.height, s)
  SetTargetFPS := fun fps s => { s with fps := fps }
  WindowShouldClose := fun s => (decide (3 ≤ s.frames), s)
  IsWindowReady := fun s => (s.ready, s)
  ToggleFullscreen := fun s => { s with fullscreen := !s.fullscreen }
  SetWindowState := fun flags s => { s with flags := flags, fullscreen := flags % 4 / 2 == 1 }
  BLACK := ⟨0, 0, 0, 255⟩
  WHITE := ⟨255, 255, 255, 255⟩
  FLAG_FULLSCREEN_MODE := 2
  DrawText := fun _ _ _ _ _ s => { s with drawn := s.drawn + 1 }
  LoadFont := fun fileName s => (if fileName = "missing.ttf" then 0 else fileName.length, s)
  DrawTextEx := fun _ _ _ _ _ _ s => { s with drawn := s.drawn + 1 }
  MeasureTextEx := fun _ text fontSize spacing s =>
    (⟨(text.length : Int) * (fontSize + spacing), fontSize⟩, s)
  CGSMainConnectionID := fun s => (1, s)
  CGSSessionSecureConnections := fun _ s => (0, { s with secured := true })

/-- The example call sequence of one frame: open a window, draw a rectangle,
ask whether to close, close. -/
def frameSequence : List (WrapperCall Int Nat) :=
  [.init_window 800 600 "t", .set_target_fps 60, .begin_drawing,
   .clear_background ⟨0, 0, 0, 255⟩, .draw_rectangle 10 20 30 40 ⟨255, 255, 255, 255⟩,
   .end_drawing, .window_should_close, .close_window]

/-! ## Shared lemmas -/

/-- Each wrapper call does exactly what its paired direct use of the library
does: same returned value, same resulting state. -/
lemma execWrapper_eq_runDirect (E : Env σ F Fnt) (w : WrapperCall F Fnt) (s : σ) :
    execWrapper E w s = runDirect E (corresponding w) s := by
  cases w <;> rfl

/-- The call log after a wrapper call is the log before it followed by the
external calls of the paired direct use. -/
lemma execWrapper_log (E : Env σ F Fnt) (w : WrapperCall F Fnt) (s : σ)
    (t : List (ExtCall F Fnt)) :
    (execWrapper (traced E) w (s, t)).2.2 = t ++ (corresponding w).calls := by
  cases w <;> simp [execWrapper, corresponding, Direct.calls, traced, init_window,
    close_window, begin_drawing, end_drawing, clear_background, draw_rectangle,
    get_screen_width, get_screen_height, set_target_fps, window_should_close,
    is_window_ready, toggle_fullscreen, set_window_state, get_black, get_white,
    get_flag_fullscreen_mode, draw_text, load_font, draw_text_ex, measure_text_ex]

/-- Attaching the call log does not change what a wrapper call returns or the
state it leaves the library in. -/
lemma execWrapper_traced (E : Env σ F Fnt) (w : WrapperCall F Fnt) (s : σ)
    (t : List (ExtCall F Fnt)) :
    (execWrapper (traced E) w (s, t)).1 = (execWrapper E w s).1 ∧
    (execWrapper (traced E) w (s, t)).2.1 = (execWrapper E w s).2 := by
  cases w <;> exact ⟨rfl, rfl⟩

/-- A paired direct use consists of no external call for a constant getter and
of exactly one otherwise. -/
lemma corresponding_calls_length (w : WrapperCall F Fnt) :
    (corresponding w).calls.length = if w.name.isConstantGetter then 0 else 1 := by
  cases w <;> rfl

/-- No paired direct use contains a CoreGraphics session call. -/
lemma corresponding_calls_not_coreGraphics (w : WrapperCall F Fnt) :
    ∀ c ∈ (corresponding w).calls, c.isCoreGraphics = false := by
  cases w <;> simp [corresponding, Direct.calls, ExtCall.isCoreGraphics]

/-- Running a concatenation is running the first part, then the second part
from the state the first part left. -/
lemma runAll_append {α β : Type} (step : α → σ → β × σ) (xs ys : List α) (s : σ) :
    runAll step (xs ++ ys) s =
      ((runAll step xs s).1 ++ (runAll step ys (runAll step xs s).2).1,
        (runAll step ys (runAll step xs s).2).2) := by
  induction xs generalizing s with
  | nil => simp [runAll]
  | cons x rest ih => simp [runAll, ih]

/-- A sequence of wrapper calls and the paired sequence of direct uses agree. -/
lemma runAll_execWrapper_eq (E : Env σ F Fnt) (ws : List (WrapperCall F Fnt)) (s : σ) :
    runAll (execWrapper E) ws s = runAll (runDirect E) (ws.map corresponding) s := by
  induction ws generalizing s with
  | nil => rfl
  | cons w rest ih => simp [runAll, ih, execWrapper_eq_runDirect]

/-- The call log after a sequence of wrapper calls, from any state and log. -/
lemma runAll_log_aux (E : Env σ F Fnt) (ws : List (WrapperCall F Fnt))
    (st : σ × List (ExtCall F Fnt)) :
    (runAll (execWrapper (traced E)) ws st).2.2 =
      st.2 ++ directCalls (ws.map corresponding) := by
  induction ws generalizing st with
  | nil => simp [runAll, directCalls]
  | cons w rest ih =>
    obtain ⟨s, t⟩ := st
    simp only [runAll, List.map_cons, directCalls]
    rw [ih, execWrapper_log, List.append_assoc]

/-- The call log after a sequence of wrapper calls. -/
lemma runAll_log (E : Env σ F Fnt) (ws : List (WrapperCall F Fnt)) (s : σ)
    (t : List (ExtCall F Fnt)) :
    (runAll (execWrapper (traced E)) ws (s, t)).2.2 =
      t ++ directCalls (ws.map corresponding) :=
  runAll_log_aux E ws (s, t)

/-- No sequence of paired direct uses contains a CoreGraphics session call. -/
lemma directCalls_not_coreGraphics (ws : List (WrapperCall F Fnt)) :
    ∀ c ∈ directCalls (ws.map corresponding), c.isCoreGraphics = false := by
  induction ws with
  | nil => simp [directCalls]
  | cons w rest ih =>
    intro c hc
    simp only [List.map_cons, directCalls, List.mem_append] at hc
    rcases hc with hc | hc
    · exact corresponding_calls_not_coreGraphics w c hc
    · exact ih c hc

/-- A run of constant getters returns the constants and leaves the state as it
was. -/
lemma runAll_getters (E : Env σ F Fnt) (gs : List Getter) (s : σ) :
    runAll (execWrapper E) (gs.map Getter.toCall) s = (gs.map (Getter.constant E), s) := by
  induction gs with
  | nil => rfl
  | cons g rest ih =>
    cases g <;>
      simp [runAll, ih, Getter.toCall, Getter.constant, execWrapper, get_black, get_white,
        get_flag_fullscreen_mode]

/-! ## Pass-through fidelity of the individual wrappers -/

/-- C1: from every library state and for every argument tuple, each of the eleven
effect-only wrappers leaves the library in exactly the state the corresponding
raylib function leaves it in when called with the same arguments in the same
positions; in particular `init_window(800, 600, "t")` equals
`InitWindow(800, 600, "t")`, and the one external call `draw_rectangle` performs
is `DrawRectangle(posX, posY, width, height, color)`, arguments in that order. -/
theorem effect_wrappers_match_library (E : Env σ F Fnt) (s : σ) :
    (∀ (width height : Int) (title : String),
      init_window E width height title s = E.InitWindow width height title s) ∧
    close_window E s = E.CloseWindow s ∧
    begin_drawing E s = E.BeginDrawing s ∧
    end_drawing E s = E.EndDrawing s ∧
    (∀ color : Color, clear_background E color s = E.ClearBackground color s) ∧
    (∀ (posX posY width height : Int) (color : Color),
      draw_rectangle E posX posY width height color s =
        E.DrawRectangle posX posY width height color s) ∧
    (∀ fps : Int, set_target_fps E fps s = E.SetTargetFPS fps s) ∧
    toggle_fullscreen E s = E.ToggleFullscreen s ∧
    (∀ flags : Nat, set_window_state E flags s = E.SetWindowState flags s) ∧
    (∀ (text : String) (posX posY fontSize : Int) (color : Color),
      draw_text E text posX posY fontSize color s =
        E.DrawText text posX posY fontSize color s) ∧
    (∀ (font : Fnt) (text : String) (position : Vector2 F) (fontSize spacing : F)
        (tint : Color),
      draw_text_ex E font text position fontSize spacing tint s =
        E.DrawTextEx font text position fontSize spacing tint s) ∧
    init_window E 800 600 "t" s = E.InitWindow 800 600 "t" s ∧
    (∀ (posX posY width height : Int) (color : Color) (t : List (ExtCall F Fnt)),
      (draw_rectangle (traced E) posX posY width height color (s, t)).2 =
        t ++ [ExtCall.DrawRectangle posX posY width height color]) :=
  ⟨fun _ _ _ => rfl, rfl, rfl, rfl, fun _ => rfl, fun _ _ _ _ _ => rfl, fun _ => rfl, rfl,
    fun _ => rfl, fun _ _ _ _ _ => rfl, fun _ _ _ _ _ _ => rfl, rfl,
    fun _ _ _ _ _ _ => rfl⟩

/-- C1 evaluated in the small environment: `init_window(800, 600, "t")` opens the
800 by 600 window titled "t", and `draw_rectangle(10, 20, 30, 40, white)` logs the
call `DrawRectangle(10, 20, 30, 40, white)`. -/
theorem effect_wrappers_match_library_witness :
    init_window toyLib 800 600 "t" toyStart =
      { toyStart with ready := true, width := 800, height := 600, caption := "t" } ∧
    (draw_rectangle (traced toyLib) 10 20 30 40 ⟨255, 255, 255, 255⟩ (toyStart, [])).2 =
      [ExtCall.DrawRectangle 10 20 30 40 ⟨255, 255, 255, 255⟩] :=
  ⟨((effect_wrappers_match_library toyLib toyStart).1 800 600 "t").trans (by decide),
    by decide⟩

/-- C2: from every library state and for every argument tuple, each of the six
value-returning wrappers returns exactly the value the corresponding raylib
function returns, unconverted, and leaves the library in the same resulting
state as that direct call. -/
theorem value_wrappers_match_library (E : Env σ F Fnt) (s : σ) :
    get_screen_width E s = E.GetScreenWidth s ∧
    get_screen_height E s = E.GetScreenHeight s ∧
    window_should_close E s = E.WindowShouldClose s ∧
    is_window_ready E s = E.IsWindowReady s ∧
    (∀ fileName : String, load_font E fileName s = E.LoadFont fileName s) ∧
    (∀ (font : Fnt) (text : String) (fontSize spacing : F),
      measure_text_ex E font text fontSize spacing s =
        E.MeasureTextEx font text fontSize spacing s) :=
  ⟨rfl, rfl, rfl, rfl, fun _ => rfl, fun _ _ _ _ => rfl⟩

/-- C2 evaluated in the small environment, after a window of 800 by 600 was
opened: the screen width is 800 and the state is left as it was. -/
theorem value_wrappers_match_library_witness :
    get_screen_width toyLib (init_window toyLib 800 600 "t" toyStart) =
      (800, init_window toyLib 800 600 "t" toyStart) :=
  (value_wrappers_match_library toyLib (init_window toyLib 800 600 "t" toyStart)).1.trans
    (by decide)

/-- C3: in every library state `get_black()` returns the library's `BLACK` and
`get_white()` the library's `WHITE`, each unchanged in all four RGBA components;
consequently the two results differ whenever `BLACK` and `WHITE` differ. -/
theorem color_getters_return_library_constants (E : Env σ F Fnt) (s : σ) :
    (get_black E s).1 = E.BLACK ∧
    (get_white E s).1 = E.WHITE ∧
    ((get_black E s).1.r = E.BLACK.r ∧ (get_black E s).1.g = E.BLACK.g ∧
      (get_black E s).1.b = E.BLACK.b ∧ (get_black E s).1.a = E.BLACK.a) ∧
    ((get_white E s).1.r = E.WHITE.r ∧ (get_white E s).1.g = E.WHITE.g ∧
      (get_white E s).1.b = E.WHITE.b ∧ (get_white E s).1.a = E.WHITE.a) ∧
    (E.BLACK ≠ E.WHITE → (get_black E s).1 ≠ (get_white E s).1) :=
  ⟨rfl, rfl, ⟨rfl, rfl, rfl, rfl⟩, ⟨rfl, rfl, rfl, rfl⟩, fun h => h⟩

/-- C3 evaluated in the small environment, whose `BLACK` is (0, 0, 0, 255) and
whose `WHITE` is (255, 255, 255, 255): the two getters return different colors. -/
theorem color_getters_return_library_constants_witness :
    toyLib.BLACK ≠ toyLib.WHITE ∧
    (get_black toyLib toyStart).1 ≠ (get_white toyLib toyStart).1 :=
  ⟨by decide,
    (color_getters_return_library_constants toyLib toyStart).2.2.2.2 (by decide)⟩

/-- C4: for every file path, `"missing.ttf"` included, `load_font(path)` returns
exactly the `Font` and leaves exactly the state that `LoadFont(path)` does; whatever
counts as a failure marker, the wrapper's result carries it if and only if the
library's does; and the only external call performed is `LoadFont(path)`. -/
theorem load_font_propagates_library_result (E : Env σ F Fnt) (fileName : String) (s : σ) :
    load_font E fileName s = E.LoadFont fileName s ∧
    load_font E "missing.ttf" s = E.LoadFont "missing.ttf" s ∧
    (∀ failed : Fnt → Prop,
      failed (load_font E fileName s).1 ↔ failed (E.LoadFont fileName s).1) ∧
    (∀ t : List (ExtCall F Fnt),
      (load_font (traced E) fileName (s, t)).2.2 = t ++ [ExtCall.LoadFont fileName]) :=
  ⟨rfl, rfl, fun _ => Iff.rfl, fun _ => rfl⟩

/-- C4 evaluated in the small environment, where a missing file yields the
fallback font `0`: `load_font("missing.ttf")` returns the fallback font. -/
theorem load_font_propagates_library_result_witness :
    (load_font toyLib "missing.ttf" toyStart).1 = 0 ∧
    (load_font toyLib "a.ttf" toyStart).1 = 5 :=
  ⟨(congrArg Prod.fst
      (load_font_propagates_library_result toyLib "missing.ttf" toyStart).1).trans
      (by decide),
    by decide⟩

/-- C5: in every library state `get_flag_fullscreen_mode()` returns the library's
`FLAG_FULLSCREEN_MODE` constant and leaves the state as it was, so that
`set_window_state(get_flag_fullscreen_mode())` leaves the library in the same
state as `SetWindowState(FLAG_FULLSCREEN_MODE)`. -/
theorem fullscreen_flag_getter_feeds_set_window_state (E : Env σ F Fnt) (s : σ) :
    get_flag_fullscreen_mode E s = (E.FLAG_FULLSCREEN_MODE, s) ∧
    set_window_state E (get_flag_fullscreen_mode E s).1 (get_flag_fullscreen_mode E s).2 =
      E.SetWindowState E.FLAG_FULLSCREEN_MODE s :=
  ⟨rfl, rfl⟩

/-- C5 evaluated in the small environment, whose fullscreen flag is 2: setting
the window state to the returned flag turns fullscreen on. -/
theorem fullscreen_flag_getter_feeds_set_window_state_witness :
    (get_flag_fullscreen_mode toyLib toyStart).1 = 2 ∧
    (set_window_state toyLib (get_flag_fullscreen_mode toyLib toyStart).1
      (get_flag_fullscreen_mode toyLib toyStart).2).fullscreen = true :=
  ⟨congrArg Prod.fst (fullscreen_flag_getter_feeds_set_window_state toyLib toyStart).1,
    by decide⟩

/-! ## The external calls the wrappers perform -/

/-- C6, as stated, fails at `get_black()`: run from the start state of the small
environment with an empty call log, it performs no external call at all, so its
calls are not "exactly one call to an underlying library function". -/
theorem get_black_performs_no_library_call :
    (execWrapper (traced toyLib) WrapperCall.get_black (toyStart, [])).2.2 = [] ∧
    ¬ ∃ c, (execWrapper (traced toyLib) WrapperCall.get_black (toyStart, [])).2.2 = [c] :=
  ⟨by decide, by
    rintro ⟨c, hc⟩
    have h0 : (execWrapper (traced toyLib) WrapperCall.get_black (toyStart, [])).2.2 = [] := by
      decide
    rw [h0] at hc
    exact List.noConfusion hc⟩

/-- C6, amended: for every wrapper call, every state and every call log, the
external calls the wrapper performs are those of its paired direct use of the
library: exactly one call, of the corresponding raylib function with the same
arguments, for the seventeen forwarding wrappers, and no call for the three
constant getters, which return a library constant. In both cases the returned
value and the resulting state are those of the paired direct use. -/
theorem wrappers_perform_one_call_or_read_a_constant (E : Env σ F Fnt)
    (w : WrapperCall F Fnt) (s : σ) (t : List (ExtCall F Fnt)) :
    (execWrapper (traced E) w (s, t)).2.2 = t ++ (corresponding w).calls ∧
    (corresponding w).calls.length = (if w.name.isConstantGetter then 0 else 1) ∧
    execWrapper E w s = runDirect E (corresponding w) s :=
  ⟨execWrapper_log E w s t, corresponding_calls_length w, execWrapper_eq_runDirect E w s⟩

/-- C6, amended, evaluated in the small environment: `draw_text("hi", 1, 2, 20, black)`
performs the single call `DrawText("hi", 1, 2, 20, black)`. -/
theorem wrappers_perform_one_call_or_read_a_constant_witness :
    (execWrapper (traced toyLib) (WrapperCall.draw_text "hi" 1 2 20 ⟨0, 0, 0, 255⟩)
      (toyStart, [])).2.2 = [ExtCall.DrawText "hi" 1 2 20 ⟨0, 0, 0, 255⟩] :=
  (wrappers_perform_one_call_or_read_a_constant toyLib
    (WrapperCall.draw_text "hi" 1 2 20 ⟨0, 0, 0, 255⟩) toyStart []).1.trans (by decide)

/-- C7: from every initial library state, every finite sequence of wrapper calls
yields the final library state and the list of returned values of the paired
sequence of direct library uses; and the result of a wrapper call made after a
sequence of earlier calls is its result in the library state those calls left,
so two histories that leave the same library state give the same result. -/
theorem wrapper_sequences_match_direct_sequences (E : Env σ F Fnt)
    (ws : List (WrapperCall F Fnt)) (s : σ) :
    runAll (execWrapper E) ws s = runAll (runDirect E) (ws.map corresponding) s ∧
    (∀ w : WrapperCall F Fnt,
      runAll (execWrapper E) (ws ++ [w]) s =
        ((runAll (execWrapper E) ws s).1 ++ [(execWrapper E w (runAll (execWrapper E) ws s).2).1],
          (execWrapper E w (runAll (execWrapper E) ws s).2).2)) ∧
    (∀ (ws' : List (WrapperCall F Fnt)) (s' : σ) (w : WrapperCall F Fnt),
      (runAll (execWrapper E) ws' s').2 = (runAll (execWrapper E) ws s).2 →
        execWrapper E w (runAll (execWrapper E) ws' s').2 =
          execWrapper E w (runAll (execWrapper E) ws s).2) := by
  refine ⟨runAll_execWrapper_eq E ws s, fun w => ?_, fun ws' s' w h => by rw [h]⟩
  rw [runAll_append]
  simp [runAll]

/-- C7 evaluated on the example frame sequence in the small environment: the
wrapper calls and the direct library calls end in the same state with the same
returned values, the window closed after one frame. -/
theorem wrapper_sequences_match_direct_sequences_witness :
    runAll (execWrapper toyLib) frameSequence toyStart =
      runAll (runDirect toyLib)
        [.call (.InitWindow 800 600 "t"), .call (.SetTargetFPS 60), .call .BeginDrawing,
         .call (.ClearBackground ⟨0, 0, 0, 255⟩),
         .call (.DrawRectangle 10 20 30 40 ⟨255, 255, 255, 255⟩), .call .EndDrawing,
         .call .WindowShouldClose, .call .CloseWindow] toyStart ∧
    (runAll (execWrapper toyLib) frameSequence toyStart).2.frames = 1 :=
  ⟨(wrapper_sequences_match_direct_sequences toyLib frameSequence toyStart).1.trans
      (by decide),
    by decide⟩

/-- C8: for every sequence of wrapper calls (a single call included) and every
input, the external calls performed contain neither `CGSMainConnectionID` nor
`CGSSessionSecureConnections`; `CGSession.h` itself defines no function. -/
theorem wrappers_never_call_coregraphics (E : Env σ F Fnt)
    (ws : List (WrapperCall F Fnt)) (s : σ) :
    (∀ c ∈ (runAll (execWrapper (traced E)) ws (s, [])).2.2, c.isCoreGraphics = false) ∧
    ExtCall.CGSMainConnectionID ∉ (runAll (execWrapper (traced E)) ws (s, [])).2.2 ∧
    (∀ session : Int,
      ExtCall.CGSSessionSecureConnections session ∉
        (runAll (execWrapper (traced E)) ws (s, [])).2.2) ∧
    (∀ w : WrapperCall F Fnt,
      ∀ c ∈ (execWrapper (traced E) w (s, [])).2.2, c.isCoreGraphics = false) := by
  have hall : ∀ c ∈ (runAll (execWrapper (traced E)) ws (s, [])).2.2,
      c.isCoreGraphics = false := by
    intro c hc
    rw [runAll_log, List.nil_append] at hc
    exact directCalls_not_coreGraphics ws c hc
  refine ⟨hall, fun h => ?_, fun session h => ?_, fun w c hc => ?_⟩
  · exact absurd (hall _ h) (by simp [ExtCall.isCoreGraphics])
  · exact absurd (hall _ h) (by simp [ExtCall.isCoreGraphics])
  · rw [execWrapper_log, List.nil_append] at hc
    exact corresponding_calls_not_coreGraphics w c hc

/-- C8 evaluated in the small environment: the call log would record a session
lock request, and the example frame sequence logs none and leaves the session
unsecured. -/
theorem wrappers_never_call_coregraphics_witness :
    ((traced toyLib).CGSSessionSecureConnections 1 (toyStart, [])).2.2 =
      [ExtCall.CGSSessionSecureConnections 1] ∧
    ExtCall.CGSMainConnectionID ∉
      (runAll (execWrapper (traced toyLib)) frameSequence (toyStart, [])).2.2 ∧
    (runAll (execWrapper toyLib) frameSequence toyStart).2.secured = false :=
  ⟨by decide, (wrappers_never_call_coregraphics toyLib frameSequence toyStart).2.1,
    by decide⟩

/-! ## The types of the wrapper prototypes -/

/-- C9, as stated, fails at `clear_background`: its one parameter has the
library's own type `Color`, not a simplified type. -/
theorem clear_background_takes_library_color :
    Wrapper.params .clear_background = [CType.Color] ∧
    ¬ (∀ w ∈ colorVectorFontWrappers, w.usesLibraryStruct = false) := by
  refine ⟨rfl, fun h => ?_⟩
  exact absurd (h .clear_background (by decide)) (by decide)

/-- C9, amended: the wrappers that handle colors, 2D positions and fonts take and
return the library's own `Color`, `Vector2` and `Font` types by value, not
simplified types. Each of the eight has one of these types in its prototype, and
the prototypes are: `void clear_background(Color)`,
`void draw_rectangle(int, int, int, int, Color)`,
`void draw_text(const char *, int, int, int, Color)`,
`void draw_text_ex(Font, const char *, Vector2, float, float, Color)`,
`Font load_font(const char *)`,
`Vector2 measure_text_ex(Font, const char *, float, float)`,
`Color get_black(void)` and `Color get_white(void)`. -/
theorem color_vector_font_wrappers_use_library_types :
    (∀ w ∈ colorVectorFontWrappers, w.usesLibraryStruct = true) ∧
    (Wrapper.params .clear_background = [.Color] ∧
      Wrapper.ret .clear_background = .void) ∧
    (Wrapper.params .draw_rectangle = [.int, .int, .int, .int, .Color] ∧
      Wrapper.ret .draw_rectangle = .void) ∧
    (Wrapper.params .draw_text = [.constCharPtr, .int, .int, .int, .Color] ∧
      Wrapper.ret .draw_text = .void) ∧
    (Wrapper.params .draw_text_ex =
        [.Font, .constCharPtr, .Vector2, .float, .float, .Color] ∧
      Wrapper.ret .draw_text_ex = .void) ∧
    (Wrapper.params .load_font = [.constCharPtr] ∧ Wrapper.ret .load_font = .Font) ∧
    (Wrapper.params .measure_text_ex = [.Font, .constCharPtr, .float, .float] ∧
      Wrapper.ret .measure_text_ex = .Vector2) ∧
    (Wrapper.params .get_black = [] ∧ Wrapper.ret .get_black = .Color) ∧
    (Wrapper.params .get_white = [] ∧ Wrapper.ret .get_white = .Color) := by
  refine ⟨?_, ⟨rfl, rfl⟩, ⟨rfl, rfl⟩, ⟨rfl, rfl⟩, ⟨rfl, rfl⟩, ⟨rfl, rfl⟩, ⟨rfl, rfl⟩,
    ⟨rfl, rfl⟩, ⟨rfl, rfl⟩⟩
  intro w hw
  simp only [colorVectorFontWrappers, List.mem_cons, List.mem_singleton] at hw
  rcases hw with h | h | h | h | h | h | h | h | h <;> first | (subst h; rfl) | cases h

/-- C9, amended, at `draw_text_ex`: it is one of the wrappers that handle colors,
positions and fonts, and its prototype mentions the library's struct types
(`Font`, `Vector2` and `Color`). -/
theorem color_vector_font_wrappers_use_library_types_witness :
    Wrapper.draw_text_ex ∈ colorVectorFontWrappers ∧
    Wrapper.usesLibraryStruct .draw_text_ex = true :=
  ⟨by decide,
    color_vector_font_wrappers_use_library_types.1 .draw_text_ex (by decide)⟩

/-! ## Purity of the constant getters -/

/-- C10: `get_black`, `get_white` and `get_flag_fullscreen_mode` are pure. In
every library state each returns the same value (the library constant) and
leaves the state unchanged; none performs an external call (the call log is
unchanged); and inserting any number of getter calls anywhere in a sequence of
wrapper calls changes neither the values returned by the other calls nor the
final state. -/
theorem constant_getters_are_pure (E : Env σ F Fnt) (s s' : σ) :
    (get_black E s = (E.BLACK, s) ∧ get_white E s = (E.WHITE, s) ∧
      get_flag_fullscreen_mode E s = (E.FLAG_FULLSCREEN_MODE, s)) ∧
    ((get_black E s).1 = (get_black E s').1 ∧ (get_white E s).1 = (get_white E s').1 ∧
      (get_flag_fullscreen_mode E s).1 = (get_flag_fullscreen_mode E s').1) ∧
    (∀ t : List (ExtCall F Fnt),
      get_black (traced E) (s, t) = (E.BLACK, (s, t)) ∧
      get_white (traced E) (s, t) = (E.WHITE, (s, t)) ∧
      get_flag_fullscreen_mode (traced E) (s, t) = (E.FLAG_FULLSCREEN_MODE, (s, t))) ∧
    (∀ (ws₁ ws₂ : List (WrapperCall F Fnt)) (gs : List Getter),
      runAll (execWrapper E) (ws₁ ++ gs.map Getter.toCall ++ ws₂) s =
        ((runAll (execWrapper E) ws₁ s).1 ++ gs.map (Getter.constant E) ++
            (runAll (execWrapper E) ws₂ (runAll (execWrapper E) ws₁ s).2).1,
          (runAll (execWrapper E) (ws₁ ++ ws₂) s).2) ∧
      runAll (execWrapper E) (ws₁ ++ ws₂) s =
        ((runAll (execWrapper E) ws₁ s).1 ++
            (runAll (execWrapper E) ws₂ (runAll (execWrapper E) ws₁ s).2).1,
          (runAll (execWrapper E) ws₂ (runAll (execWrapper E) ws₁ s).2).2)) := by
  refine ⟨⟨rfl, rfl, rfl⟩, ⟨rfl, rfl, rfl⟩, fun t => ⟨rfl, rfl, rfl⟩, fun ws₁ ws₂ gs => ?_⟩
  refine ⟨?_, runAll_append _ ws₁ ws₂ s⟩
  rw [runAll_append, runAll_append, runAll_getters, runAll_append _ ws₁ ws₂]

/-- C10 evaluated in the small environment: the getters return the same
constants before `init_window` and after `close_window`, and the example frame
sequence with two getter calls inserted after its third call ends in the same
state as without them. -/
theorem constant_getters_are_pure_witness :
    (get_black toyLib toyStart).1 =
      (get_black toyLib (runAll (execWrapper toyLib) frameSequence toyStart).2).1 ∧
    (runAll (execWrapper toyLib)
      (frameSequence.take 3 ++
        [Getter.get_white, Getter.get_flag_fullscreen_mode].map Getter.toCall ++
        frameSequence.drop 3) toyStart).2 =
      (runAll (execWrapper toyLib) frameSequence toyStart).2 :=
  ⟨(constant_getters_are_pure toyLib toyStart
      (runAll (execWrapper toyLib) frameSequence toyStart).2).2.1.1,
    by decide⟩

end Smoko
